import Mathlib

/-!
Verification of the privacy-tiered access-control policy of the
AncestorTree genealogy application.

The row-visibility rules are the PostgreSQL row-level-security policies of
the Sprint 9 security-hardening migration (tables `profiles`, `people`,
`families`, `children`, `events`, `media`).  PostgreSQL evaluates several
permissive SELECT policies on one table as a disjunction, and RLS is
row-level only: an allowed row is returned with ALL of its columns.  The
embedding below transcribes each policy's USING clause as a Boolean
predicate and combines them by `||`.

`auth.uid() IS NOT NULL` holds exactly for authenticated actors (Member or
Admin); the `EXISTS (SELECT 1 FROM profiles ... role = admin)` subquery
holds exactly for Admin actors.  The form defaults come from
`defaultPersonValues` in `src/lib/validations/person.ts`.
-/

/-- The three actor shapes the actor resolver produces. -/
inductive Actor where
  | Anonymous : Actor
  | Member : String → Actor
  | Admin : String → Actor
deriving DecidableEq, Repr

/-- `auth.uid() IS NOT NULL`: any logged-in actor. -/
def Actor.isAuthenticated : Actor → Bool
  | .Anonymous => false
  | .Member _ => true
  | .Admin _ => true

/-- The admin-profile EXISTS subquery of the policy
"Admins can read all people". -/
def Actor.isAdmin : Actor → Bool
  | .Admin _ => true
  | _ => false

/-- Columns of the `people` table that the policies and the UI touch.
`privacy_level` is the privacy tier (0 public, 1 members, 2 private);
the five contact columns are independently nullable. -/
structure Person where
  id : Nat
  display_name : String
  generation : Nat
  is_living : Bool
  privacy_level : Int
  phone : Option String
  email : Option String
  zalo : Option String
  facebook : Option String
  address : Option String
  biography : Option String
  notes : Option String
deriving DecidableEq, Repr

/-- USING clause of policy "Public read for public non-contact people":
`privacy_level = 0 AND phone IS NULL AND email IS NULL AND zalo IS NULL
AND facebook IS NULL AND address IS NULL`. -/
def publicNonContactPolicy (p : Person) : Bool :=
  decide (p.privacy_level = 0) && p.phone.isNone && p.email.isNone
    && p.zalo.isNone && p.facebook.isNone && p.address.isNone

/-- USING clause of policy "Authenticated users can read non-private
people": `auth.uid() IS NOT NULL AND privacy_level < 2`. -/
def authenticatedNonPrivatePolicy (a : Actor) (p : Person) : Bool :=
  a.isAuthenticated && decide (p.privacy_level < 2)

/-- USING clause of policy "Admins can read all people". -/
def adminReadAllPolicy (a : Actor) : Bool :=
  a.isAdmin

/-- PostgreSQL RLS: a row of `people` is SELECT-visible when any of the
three permissive policies accepts it. -/
def personRowVisible (a : Actor) (p : Person) : Bool :=
  publicNonContactPolicy p || authenticatedNonPrivatePolicy a p
    || adminReadAllPolicy a

/-- The decision the engine reports as data. -/
inductive Decision where
  | Allow : Decision
  | Deny : Decision
deriving DecidableEq, Repr

/-- Row decision for a `people` row. -/
def checkAccessPerson (a : Actor) (p : Person) : Decision :=
  if personRowVisible a p then Decision.Allow else Decision.Deny

/-- What a SELECT returns for one `people` row: RLS cannot restrict
columns, so a visible row comes back whole and a hidden row not at all. -/
def filterFieldsPerson (a : Actor) (p : Person) : Option Person :=
  if personRowVisible a p then some p else none

/-- A row of the `profiles` table. -/
structure Profile where
  user_id : String
  role : String
deriving DecidableEq, Repr

/-- USING clause of policy "Authenticated users can read profiles":
`auth.uid() IS NOT NULL` — the row content is not consulted. -/
def profileRowVisible (a : Actor) (_pr : Profile) : Bool :=
  a.isAuthenticated

/-- Row decision for a `profiles` row. -/
def checkAccessProfile (a : Actor) (pr : Profile) : Decision :=
  if profileRowVisible a pr then Decision.Allow else Decision.Deny

/-- A row of the `events` table; `person_id` optionally references a
`people` row. -/
structure Event where
  id : Nat
  title : String
  person_id : Option Nat
  recurring : Bool
deriving DecidableEq, Repr

/-- USING clause of policy "Authenticated can read events":
`auth.uid() IS NOT NULL` — the row content is not consulted. -/
def eventRowVisible (a : Actor) (_e : Event) : Bool :=
  a.isAuthenticated

/-- Row decision for an `events` row. -/
def checkAccessEvent (a : Actor) (e : Event) : Decision :=
  if eventRowVisible a e then Decision.Allow else Decision.Deny

/-- A row of the `media` table; `person_id` optionally references a
`people` row. -/
structure MediaAsset where
  id : Nat
  person_id : Option Nat
deriving DecidableEq, Repr

/-- USING clause of policy "Authenticated can read media":
`auth.uid() IS NOT NULL`. -/
def mediaRowVisible (a : Actor) (_m : MediaAsset) : Bool :=
  a.isAuthenticated

/-- Row decision for a `media` row. -/
def checkAccessMedia (a : Actor) (m : MediaAsset) : Decision :=
  if mediaRowVisible a m then Decision.Allow else Decision.Deny

/-- The Person an Event or Media row references, resolved through its
foreign key against a corpus of `people` rows. -/
def referencedPerson (people : List Person) (pid : Option Nat) : Option Person :=
  pid.bind (fun i => people.find? (fun p => p.id == i))

/-- `phone IS NOT NULL OR email IS NOT NULL OR zalo IS NOT NULL OR
facebook IS NOT NULL OR address IS NOT NULL` of the SEC-05 UPDATE. -/
def hasContactData (p : Person) : Bool :=
  p.phone.isSome || p.email.isSome || p.zalo.isSome
    || p.facebook.isSome || p.address.isSome

/-- WHERE clause of the SEC-05 reclassification UPDATE:
`privacy_level = 0 AND is_living = true AND (any contact non-null)`. -/
def sweepCondition (p : Person) : Bool :=
  decide (p.privacy_level = 0) && p.is_living && hasContactData p

/-- Effect of the SEC-05 UPDATE on one `people` row:
`SET privacy_level = 1` where the condition holds, untouched elsewhere. -/
def sweepPerson (p : Person) : Person :=
  if sweepCondition p then { p with privacy_level := 1 } else p

/-- The SEC-05 UPDATE over a whole corpus of `people` rows. -/
def sweepCorpus (c : List Person) : List Person :=
  c.map sweepPerson

/-- SEC-03: `ALTER TABLE people ALTER COLUMN privacy_level SET DEFAULT 1` —
the value stored when an INSERT omits the column. -/
def privacyLevelColumnDefault : Int := 1

/-- The tier an INSERT stores: the submitted value when the column is
supplied, the SEC-03 column default when it is omitted. -/
def storedPrivacyLevel (submitted : Option Int) : Int :=
  match submitted with
  | some v => v
  | none => privacyLevelColumnDefault

/-- Shape of the person form (`personSchema` in
`src/lib/validations/person.ts`); `privacy_level` is required, so the
form always submits it. -/
structure PersonFormData where
  handle : String
  display_name : String
  first_name : Option String
  middle_name : Option String
  surname : Option String
  pen_name : Option String
  taboo_name : Option String
  gender : Int
  generation : Int
  chi : Option Int
  birth_date : Option String
  birth_year : Option Int
  birth_place : Option String
  death_date : Option String
  death_year : Option Int
  death_place : Option String
  death_lunar : Option String
  is_living : Bool
  is_patrilineal : Bool
  phone : Option String
  email : Option String
  zalo : Option String
  facebook : Option String
  address : Option String
  hometown : Option String
  occupation : Option String
  biography : Option String
  notes : Option String
  avatar_url : Option String
  privacy_level : Int
deriving DecidableEq, Repr

/-- `defaultPersonValues` of `src/lib/validations/person.ts`, field for
field (empty strings and `undefined` as in the source). -/
def defaultPersonValues : PersonFormData :=
  { handle := ""
    display_name := ""
    first_name := some ""
    middle_name := some ""
    surname := some ""
    pen_name := some ""
    taboo_name := some ""
    gender := 1
    generation := 1
    chi := none
    birth_date := some ""
    birth_year := none
    birth_place := some ""
    death_date := some ""
    death_year := none
    death_place := some ""
    death_lunar := some ""
    is_living := true
    is_patrilineal := true
    phone := some ""
    email := some ""
    zalo := some ""
    facebook := some ""
    address := some ""
    hometown := some ""
    occupation := some ""
    biography := some ""
    notes := some ""
    avatar_url := some ""
    privacy_level := 0 }

/-!
Concrete records used by the scenario parts of the claims, by the
witnesses and by the counterexamples.
-/

/-- A deceased public ancestor: tier 0, every contact column null. -/
def ancestorPerson : Person :=
  { id := 1
    display_name := "To tien"
    generation := 1
    is_living := false
    privacy_level := 0
    phone := none
    email := none
    zalo := none
    facebook := none
    address := none
    biography := none
    notes := none }

/-- A living person with tier 0 and a stored phone number
(scenario 1 of the spec). -/
def livingContactPerson : Person :=
  { id := 2
    display_name := "Nguoi song"
    generation := 5
    is_living := true
    privacy_level := 0
    phone := some "0900000000"
    email := none
    zalo := none
    facebook := none
    address := none
    biography := none
    notes := none }

/-- A tier-2 (private) person. -/
def tier2Person : Person :=
  { id := 3
    display_name := "Nguoi rieng tu"
    generation := 6
    is_living := true
    privacy_level := 2
    phone := some "0911111111"
    email := none
    zalo := none
    facebook := none
    address := some "So 1 pho X"
    biography := none
    notes := none }

/-- A tier-0 person with no contact data but a non-null biography and
non-null notes. -/
def biographyPerson : Person :=
  { id := 4
    display_name := "Nguoi co tieu su"
    generation := 2
    is_living := false
    privacy_level := 0
    phone := none
    email := none
    zalo := none
    facebook := none
    address := none
    biography := some "Tieu su can giu cho thanh vien"
    notes := some "Ghi chu noi bo" }

/-- A LIVING person with tier 0 and every contact column null. -/
def livingPublicPerson : Person :=
  { id := 5
    display_name := "Nguoi song cong khai"
    generation := 7
    is_living := true
    privacy_level := 0
    phone := none
    email := none
    zalo := none
    facebook := none
    address := none
    biography := none
    notes := none }

/-- An event referencing the tier-2 person. -/
def tier2Event : Event :=
  { id := 10
    title := "Le ky niem"
    person_id := some 3
    recurring := true }

/-- The corpus the event counterexample resolves its reference in. -/
def sampleCorpus : List Person :=
  [ancestorPerson, livingContactPerson, tier2Person]

/-!
Helper lemmas shared by the claim theorems.
-/

/-- An Allow decision on a `people` row is exactly row visibility. -/
theorem personAllow_iff (a : Actor) (p : Person) :
    checkAccessPerson a p = Decision.Allow ↔ personRowVisible a p = true := by
  unfold checkAccessPerson
  cases h : personRowVisible a p <;> simp [h]

/-- For `Anonymous` only the public-non-contact policy can fire: visibility
is exactly tier 0 with all five contact columns null. -/
theorem anonymousVisible_iff (p : Person) :
    personRowVisible Actor.Anonymous p = true ↔
      p.privacy_level = 0 ∧ p.phone = none ∧ p.email = none ∧ p.zalo = none
        ∧ p.facebook = none ∧ p.address = none := by
  simp [personRowVisible, publicNonContactPolicy, authenticatedNonPrivatePolicy,
    adminReadAllPolicy, Actor.isAuthenticated, Actor.isAdmin,
    Option.isNone_iff_eq_none, and_assoc]

/-- For a `Member` the three policies collapse to `privacy_level < 2`. -/
theorem memberVisible_iff (u : String) (p : Person) :
    personRowVisible (Actor.Member u) p = true ↔ p.privacy_level < 2 := by
  simp only [personRowVisible, publicNonContactPolicy,
    authenticatedNonPrivatePolicy, adminReadAllPolicy, Actor.isAuthenticated,
    Actor.isAdmin, Option.isNone_iff_eq_none, Bool.or_eq_true,
    Bool.and_eq_true, decide_eq_true_eq, true_and, and_assoc]
  constructor
  · rintro ((⟨h0, -⟩ | h) | h)
    · omega
    · exact h
    · exact absurd h (by simp)
  · exact fun h => Or.inl (Or.inr h)

/-- Applying the sweep a second time changes nothing on one row. -/
theorem sweepPerson_idem (p : Person) :
    sweepPerson (sweepPerson p) = sweepPerson p := by
  by_cases h : sweepCondition p = true
  · have h2 : sweepCondition { p with privacy_level := 1 } = false := by
      simp [sweepCondition]
    simp [sweepPerson, h, h2]
  · simp [sweepPerson, h]

/-!
The claim theorems.
-/

/-- Claim C1 (confirmed): for every Person record and the Anonymous actor,
the access decision never exposes a non-null contact field — any row the
anonymous policy returns has all five contact columns null. -/
theorem anonymous_no_contact_leak (p r : Person)
    (h : filterFieldsPerson Actor.Anonymous p = some r) :
    r.phone = none ∧ r.email = none ∧ r.zalo = none
      ∧ r.facebook = none ∧ r.address = none := by
  unfold filterFieldsPerson at h
  by_cases hv : personRowVisible Actor.Anonymous p = true
  · rw [if_pos hv] at h
    obtain rfl : p = r := Option.some.inj h
    exact ((anonymousVisible_iff p).mp hv).2
  · rw [if_neg hv] at h
    exact absurd h (by simp)

/-- Witness for C1 at the concrete public ancestor record. -/
theorem anonymous_no_contact_leak_witness :
    ancestorPerson.phone = none ∧ ancestorPerson.email = none
      ∧ ancestorPerson.zalo = none ∧ ancestorPerson.facebook = none
      ∧ ancestorPerson.address = none :=
  anonymous_no_contact_leak ancestorPerson ancestorPerson rfl

/-- Claim C2 (confirmed): Anonymous is allowed a Person row exactly when
the tier is 0 and every contact column is null; in particular the living
tier-0 person with a stored phone number is denied. -/
theorem anonymous_person_rule :
    (∀ p : Person, checkAccessPerson Actor.Anonymous p = Decision.Allow ↔
      p.privacy_level = 0 ∧ p.phone = none ∧ p.email = none ∧ p.zalo = none
        ∧ p.facebook = none ∧ p.address = none) ∧
    checkAccessPerson Actor.Anonymous livingContactPerson = Decision.Deny := by
  refine ⟨fun p => ?_, rfl⟩
  rw [personAllow_iff, anonymousVisible_iff]

/-- Counterexample for C3: the anonymous-allowed read of a tier-0
no-contact person returns the whole row, whose biography and notes
columns are non-null — row-level security strips no column, so the
visible field set does NOT exclude biography and notes. -/
theorem anonymous_biography_included_cex :
    filterFieldsPerson Actor.Anonymous biographyPerson = some biographyPerson
      ∧ biographyPerson.biography = some "Tieu su can giu cho thanh vien"
      ∧ biographyPerson.notes = some "Ghi chu noi bo" :=
  ⟨rfl, rfl, rfl⟩

/-- Claim C3 (corrected): when Anonymous is allowed a Person row, the whole
row is returned — name and generation included — and all five contact
columns of that row are necessarily null; biography and notes are not
stripped. -/
theorem anonymous_allowed_full_row (p : Person)
    (h : checkAccessPerson Actor.Anonymous p = Decision.Allow) :
    filterFieldsPerson Actor.Anonymous p = some p
      ∧ p.phone = none ∧ p.email = none ∧ p.zalo = none
      ∧ p.facebook = none ∧ p.address = none := by
  have hv : personRowVisible Actor.Anonymous p = true := (personAllow_iff _ _).mp h
  refine ⟨?_, ((anonymousVisible_iff p).mp hv).2⟩
  unfold filterFieldsPerson
  rw [if_pos hv]

/-- Witness for the amended C3 at the concrete public ancestor record. -/
theorem anonymous_allowed_full_row_witness :
    filterFieldsPerson Actor.Anonymous ancestorPerson = some ancestorPerson
      ∧ ancestorPerson.phone = none ∧ ancestorPerson.email = none
      ∧ ancestorPerson.zalo = none ∧ ancestorPerson.facebook = none
      ∧ ancestorPerson.address = none :=
  anonymous_allowed_full_row ancestorPerson rfl

/-- Claim C4 (code bug): the admin-form defaults submit a privacy tier of
0, so a person created with the form untouched is stored public even
though the SEC-03 column default (used only when the column is omitted)
is 1. -/
theorem default_form_tier_public :
    defaultPersonValues.privacy_level = 0
      ∧ storedPrivacyLevel (some defaultPersonValues.privacy_level) = 0
      ∧ privacyLevelColumnDefault = 1
      ∧ storedPrivacyLevel none = 1 :=
  ⟨rfl, rfl, rfl, rfl⟩

/-- Counterexample for C5: the event referencing the tier-2 person is
allowed to a plain Member — the events policy checks only authentication
and inherits nothing from the referenced Person. -/
theorem event_tier2_member_allowed_cex :
    referencedPerson sampleCorpus tier2Event.person_id = some tier2Person
      ∧ tier2Person.privacy_level = 2
      ∧ checkAccessEvent (Actor.Member "thanh-vien") tier2Event = Decision.Allow := by
  refine ⟨?_, rfl, rfl⟩
  rfl

/-- Claim C5 (corrected): Event and Media row visibility depends only on
authentication; the referenced Person's tier and contact flag are never
consulted, so any authenticated actor reads every Event and Media row and
Anonymous reads none. -/
theorem event_media_authentication_only :
    (∀ (a : Actor) (e : Event),
        checkAccessEvent a e = Decision.Allow ↔ a.isAuthenticated = true)
      ∧ (∀ (a : Actor) (m : MediaAsset),
        checkAccessMedia a m = Decision.Allow ↔ a.isAuthenticated = true) := by
  constructor
  · intro a e
    unfold checkAccessEvent eventRowVisible
    cases h : a.isAuthenticated <;> simp [h]
  · intro a m
    unfold checkAccessMedia mediaRowVisible
    cases h : a.isAuthenticated <;> simp [h]

/-- Claim C6 (confirmed): a Member is allowed a Person row exactly when
its tier is below 2; the tier-2 record is denied to the Member but
allowed, with every column, to an Admin. -/
theorem member_person_rule :
    (∀ (u : String) (p : Person),
        checkAccessPerson (Actor.Member u) p = Decision.Allow ↔
          p.privacy_level < 2)
      ∧ checkAccessPerson (Actor.Member "thanh-vien") tier2Person = Decision.Deny
      ∧ checkAccessPerson (Actor.Admin "quan-tri") tier2Person = Decision.Allow
      ∧ filterFieldsPerson (Actor.Admin "quan-tri") tier2Person = some tier2Person := by
  refine ⟨fun u p => ?_, rfl, rfl, rfl⟩
  rw [personAllow_iff, memberVisible_iff]

/-- Claim C7 (confirmed): Anonymous is denied every Profile row, every
authenticated actor (Member or Admin) is allowed every Profile row, and
the decision never depends on the row itself — only on authentication. -/
theorem profile_isolation :
    (∀ pr : Profile, checkAccessProfile Actor.Anonymous pr = Decision.Deny)
      ∧ (∀ (u : String) (pr : Profile),
        checkAccessProfile (Actor.Member u) pr = Decision.Allow)
      ∧ (∀ (u : String) (pr : Profile),
        checkAccessProfile (Actor.Admin u) pr = Decision.Allow)
      ∧ (∀ (a : Actor) (q r : Profile),
        checkAccessProfile a q = checkAccessProfile a r) :=
  ⟨fun _ => rfl, fun _ _ => rfl, fun _ _ => rfl, fun _ _ _ => rfl⟩

/-- Claim C8 (confirmed): the SEC-05 sweep rewrites exactly the rows with
tier 0, living flag set and some contact column non-null — those to tier
1 and nothing else — it never lowers a tier, and sweeping a corpus twice
equals sweeping it once. -/
theorem sweep_exact_monotone_idempotent :
    (∀ p : Person, sweepCondition p = true →
        sweepPerson p = { p with privacy_level := 1 })
      ∧ (∀ p : Person, sweepCondition p = false → sweepPerson p = p)
      ∧ (∀ p : Person, p.privacy_level ≤ (sweepPerson p).privacy_level)
      ∧ (∀ c : List Person, sweepCorpus (sweepCorpus c) = sweepCorpus c) := by
  refine ⟨fun p h => ?_, fun p h => ?_, fun p => ?_, fun c => ?_⟩
  · unfold sweepPerson
    rw [if_pos h]
  · simp [sweepPerson, h]
  · by_cases h : sweepCondition p = true
    · have h0 : p.privacy_level = 0 := by
        simp only [sweepCondition, Bool.and_eq_true, decide_eq_true_eq] at h
        exact h.1.1
      simp only [sweepPerson, h, if_true]
      rw [h0]
      norm_num
    · simp [sweepPerson, h]
  · simp [sweepCorpus, List.map_map, Function.comp_def, sweepPerson_idem]

/-- Claim C9 (confirmed): tier monotonicity — a Person row denied to a
Member is also denied to Anonymous; the anonymous decision is never the
more permissive one. -/
theorem tier_monotonicity (u : String) (p : Person)
    (h : checkAccessPerson (Actor.Member u) p = Decision.Deny) :
    checkAccessPerson Actor.Anonymous p = Decision.Deny := by
  unfold checkAccessPerson at h ⊢
  by_cases ha : personRowVisible Actor.Anonymous p = true
  · exfalso
    obtain ⟨h0, -⟩ := (anonymousVisible_iff p).mp ha
    have hm : personRowVisible (Actor.Member u) p = true :=
      (memberVisible_iff u p).mpr (by omega)
    rw [if_pos hm] at h
    exact Decision.noConfusion h
  · rw [if_neg ha]

/-- Witness for C9 at the tier-2 person. -/
theorem tier_monotonicity_witness :
    checkAccessPerson Actor.Anonymous tier2Person = Decision.Deny :=
  tier_monotonicity "thanh-vien" tier2Person rfl

/-- Claim C10 (confirmed): the anonymous rule never reads `is_living` —
any tier-0 record with all five contact columns null is allowed to
Anonymous, whatever the living flag holds. -/
theorem anonymous_ignores_living_flag (p : Person)
    (h0 : p.privacy_level = 0) (h1 : p.phone = none) (h2 : p.email = none)
    (h3 : p.zalo = none) (h4 : p.facebook = none) (h5 : p.address = none) :
    checkAccessPerson Actor.Anonymous p = Decision.Allow := by
  rw [personAllow_iff, anonymousVisible_iff]
  exact ⟨h0, h1, h2, h3, h4, h5⟩

/-- Witness for C10 at a living tier-0 person without contact data. -/
theorem anonymous_ignores_living_flag_witness :
    livingPublicPerson.is_living = true
      ∧ checkAccessPerson Actor.Anonymous livingPublicPerson = Decision.Allow :=
  ⟨rfl, anonymous_ignores_living_flag livingPublicPerson rfl rfl rfl rfl rfl rfl⟩
